import Mathlib

/-!
Verification of the authentication & session-token lifecycle of the
NGO-management backend (`AutenticacaoService` in
src/backend/controllers/ongController.js, lines 212-262 of the bundle).

The service code under verification is:

```js
async login(credenciais) {
    const usuario = await autenticacaoRepository.buscarPorEmail(credenciais.email);
    if (usuario && usuario.senha === credenciais.senha) {
        return { token: ..., usuario: { id, email, nome, perfil }, refreshToken: ... }
    }
    throw new Error('Email ou senha inválidos');
}

async refreshToken(refreshToken) {
    try {
        const decoded = verify(refreshToken, process.env.SECRET_REFRESH);
        const usuario = await autenticacaoRepository.buscarPorEmail(decoded.usuario.email);
        if (usuario) { return { token: ..., usuario: {...}, refreshToken: ... } }
    } catch (error) {
        throw new Error('Refresh Token inválido');
    }
}
```

The `AutenticacaoRepository` (buscarPorEmail, gerarToken, gerarRefreshToken)
and the `jsonwebtoken` codec (`verify`) are collaborators whose code is not
part of the sources verified here; they are modelled from the specification
(sections 4.1 and 6): the credential store is a lookup by email over a table
of user records, and the token codec is an idealized signature scheme in
which a token verifies against exactly the secret that signed it.
-/

deriving instance DecidableEq for Except

namespace Autenticacao

/-- A user record as stored by the credential store (table `usuarios`):
integer id, email, display name, role tag (`perfil`) and the stored
credential secret (`senha`). -/
structure Usuario where
  id : Nat
  email : String
  nome : String
  perfil : String
  senha : String
deriving Repr, DecidableEq

/-- The claims payload exposed inside tokens and as the public profile:
exactly the four public fields the service copies out of a `Usuario`
(id, email, nome, perfil) — mirroring the object literal
`{ id: usuario.id, email: usuario.email, nome: usuario.nome, perfil: usuario.perfil }`. -/
structure ClaimsPayload where
  id : Nat
  email : String
  nome : String
  perfil : String
deriving Repr, DecidableEq

/-- Build the public claims from a stored user record, as the service does
field by field. -/
def mkClaims (u : Usuario) : ClaimsPayload :=
  { id := u.id, email := u.email, nome := u.nome, perfil := u.perfil }

/-- Modelled from the spec: a signed token (the repository's `gerarToken` /
`gerarRefreshToken` and the `jsonwebtoken` encoding are not among the
verified sources). A token carries a claims snapshot, an issued-at time,
an expiry, and — as the idealized counterpart of its HMAC signature —
the secret that signed it: verification against a secret succeeds exactly
when that secret signed the token. -/
structure Token where
  claims : ClaimsPayload
  issuedAt : Nat
  exp : Nat
  secret : String
deriving Repr, DecidableEq

/-- A presented token string: either not decodable at all (malformed), or a
decodable signed token. -/
inductive Presented where
  | malformed (raw : String)
  | signed (t : Token)
deriving Repr, DecidableEq

/-- Codec-level verification outcomes (internal to the token codec). -/
inductive VerifError where
  | Malformed
  | InvalidSignature
  | Expired
deriving Repr, DecidableEq

/-- Modelled from the spec: `verify(tokenString, secret)` of the token codec
(`jsonwebtoken`'s `verify`, not among the verified sources). Rejects a
non-decodable token as `Malformed`, a token signed with a different secret
as `InvalidSignature`, a token whose expiry has passed as `Expired`;
otherwise returns the embedded claims. -/
def verify (p : Presented) (secret : String) (now : Nat) : Except VerifError ClaimsPayload :=
  match p with
  | .malformed _ => .error .Malformed
  | .signed t =>
    if t.secret ≠ secret then .error .InvalidSignature
    else if t.exp ≤ now then .error .Expired
    else .ok t.claims

/-- Modelled from the spec: `issue(claims, secret, ttl)` — serialize the
claims with issued-at `now` and expiry `now + ttl`, signed with `secret`. -/
def issue (claims : ClaimsPayload) (secret : String) (now ttl : Nat) : Token :=
  { claims := claims, issuedAt := now, exp := now + ttl, secret := secret }

/-- Process configuration: the two signing secrets (`process.env.SECRET`,
`process.env.SECRET_REFRESH`) and the two token lifetimes. -/
structure Config where
  secret : String
  secretRefresh : String
  accessTtl : Nat
  refreshTtl : Nat
deriving Repr, DecidableEq

/-- Modelled from the spec: the repository's `buscarPorEmail` — look up a
user record by email in the credential store's user table. -/
def buscarPorEmail (store : List Usuario) (email : String) : Option Usuario :=
  store.find? (fun u => u.email = email)

/-- Modelled from the spec: the repository's `gerarToken` — issue a
short-lived access token over the user's public claims, signed with the
access secret. -/
def gerarToken (cfg : Config) (u : Usuario) (now : Nat) : Token :=
  issue (mkClaims u) cfg.secret now cfg.accessTtl

/-- Modelled from the spec: the repository's `gerarRefreshToken` — issue a
long-lived refresh token over the user's public claims, signed with the
refresh secret. -/
def gerarRefreshToken (cfg : Config) (u : Usuario) (now : Nat) : Token :=
  issue (mkClaims u) cfg.secretRefresh now cfg.refreshTtl

/-- The credentials object passed to `login` (`credenciais.email`,
`credenciais.senha`). -/
structure Credenciais where
  email : String
  senha : String
deriving Repr, DecidableEq

/-- The bundle returned on success: `{ token, usuario, refreshToken }`. -/
structure SessionBundle where
  token : Token
  usuario : ClaimsPayload
  refreshToken : Token
deriving Repr, DecidableEq

/-- The service-boundary errors, identified by the message of the thrown
`Error`. -/
inductive AuthError where
  | EmailOuSenhaInvalidos
  | RefreshTokenInvalido
deriving Repr, DecidableEq

/-- The message text carried by each thrown error. -/
def AuthError.message : AuthError → String
  | .EmailOuSenhaInvalidos => "Email ou senha inválidos"
  | .RefreshTokenInvalido => "Refresh Token inválido"

/-- `AutenticacaoService.login`: look up the user by email; if a record is
found and its stored `senha` equals the presented `senha`, return the
session bundle; in every other case throw `'Email ou senha inválidos'`.
Mirrors `if (usuario && usuario.senha === credenciais.senha) {...} throw ...`. -/
def login (cfg : Config) (store : List Usuario) (now : Nat) (credenciais : Credenciais) :
    Except AuthError SessionBundle :=
  match buscarPorEmail store credenciais.email with
  | some usuario =>
    if usuario.senha = credenciais.senha then
      .ok { token := gerarToken cfg usuario now,
            usuario := mkClaims usuario,
            refreshToken := gerarRefreshToken cfg usuario now }
    else
      .error .EmailOuSenhaInvalidos
  | none => .error .EmailOuSenhaInvalidos

/-- `AutenticacaoService.refreshToken`, with the credential-store lookup
abstracted as a fallible operation (an awaited promise that may reject):
the `try` block covers both `verify` and the lookup, and the `catch`
rethrows every exception as `'Refresh Token inválido'`. When `verify`
succeeds and the lookup resolves to `null`, the JS function falls off the
end of the `try` block and returns `undefined` — modelled as `.ok none`. -/
def refreshTokenWith (cfg : Config)
    (lookup : String → Except String (Option Usuario))
    (now : Nat) (presented : Presented) :
    Except AuthError (Option SessionBundle) :=
  match verify presented cfg.secretRefresh now with
  | .error _ => .error .RefreshTokenInvalido
  | .ok decoded =>
    match lookup decoded.email with
    | .error _ => .error .RefreshTokenInvalido
    | .ok (some usuario) =>
      .ok (some { token := gerarToken cfg usuario now,
                  usuario := mkClaims usuario,
                  refreshToken := gerarRefreshToken cfg usuario now })
    | .ok none => .ok none

/-- `AutenticacaoService.refreshToken` against a concrete user table whose
lookups resolve without infrastructure failure. -/
def refreshToken (cfg : Config) (store : List Usuario) (now : Nat) (presented : Presented) :
    Except AuthError (Option SessionBundle) :=
  refreshTokenWith cfg (fun e => .ok (buscarPorEmail store e)) now presented

/-! ### State-passing view of the service

To settle the frame claim (no state is mutated), the two operations are
also embedded in explicit state-passing style: the server state is the
credential store's user table plus the set of server-side token records,
and every repository call is embedded with the effect it actually has.
`buscarPorEmail` is a read (`SELECT` by email); token issuance signs and
returns a token without persisting anything (the design is stateless:
no revocation list, no token table). -/

/-- The server-side state visible to the authentication service: the user
table and any server-side token records (none are ever created, but the
slot exists so that the frame theorem says something). -/
structure ServerState where
  users : List Usuario
  tokenRecords : List Token
deriving Repr, DecidableEq

/-- `buscarPorEmail` as a stateful operation: a read-only lookup. -/
def buscarPorEmailS (st : ServerState) (email : String) : Option Usuario × ServerState :=
  (buscarPorEmail st.users email, st)

/-- `gerarToken` as a stateful operation: signs and returns the access
token; no record is stored. -/
def gerarTokenS (cfg : Config) (st : ServerState) (u : Usuario) (now : Nat) :
    Token × ServerState :=
  (gerarToken cfg u now, st)

/-- `gerarRefreshToken` as a stateful operation: signs and returns the
refresh token; no record is stored. -/
def gerarRefreshTokenS (cfg : Config) (st : ServerState) (u : Usuario) (now : Nat) :
    Token × ServerState :=
  (gerarRefreshToken cfg u now, st)

/-- `login` in state-passing style: the same control flow as `login`, with
every repository call threaded through the server state. -/
def loginS (cfg : Config) (st : ServerState) (now : Nat) (credenciais : Credenciais) :
    Except AuthError SessionBundle × ServerState :=
  let (usuarioOpt, st1) := buscarPorEmailS st credenciais.email
  match usuarioOpt with
  | some usuario =>
    if usuario.senha = credenciais.senha then
      let (tok, st2) := gerarTokenS cfg st1 usuario now
      let (rtok, st3) := gerarRefreshTokenS cfg st2 usuario now
      (.ok { token := tok, usuario := mkClaims usuario, refreshToken := rtok }, st3)
    else
      (.error .EmailOuSenhaInvalidos, st1)
  | none => (.error .EmailOuSenhaInvalidos, st1)

/-- `refreshToken` in state-passing style. -/
def refreshTokenS (cfg : Config) (st : ServerState) (now : Nat) (presented : Presented) :
    Except AuthError (Option SessionBundle) × ServerState :=
  match verify presented cfg.secretRefresh now with
  | .error _ => (.error .RefreshTokenInvalido, st)
  | .ok decoded =>
    let (usuarioOpt, st1) := buscarPorEmailS st decoded.email
    match usuarioOpt with
    | some usuario =>
      let (tok, st2) := gerarTokenS cfg st1 usuario now
      let (rtok, st3) := gerarRefreshTokenS cfg st2 usuario now
      (.ok (some { token := tok, usuario := mkClaims usuario, refreshToken := rtok }), st3)
    | none => (.ok none, st1)

/-! ### Serialized shape of the public profile

The JSON object the service places in the response (and the claims object
the repository serializes into each token) is the literal
`{ id, email, nome, perfil }`.  `profileJson` is that association list of
key/value pairs; it is what crosses the service boundary. -/

/-- A JSON scalar, enough for the profile object's values. -/
inductive JsonVal where
  | num (n : Nat)
  | str (s : String)
deriving Repr, DecidableEq

/-- The serialized public-profile object, key by key, in the order of the
object literal in the source. -/
def profileJson (c : ClaimsPayload) : List (String × JsonVal) :=
  [("id", .num c.id), ("email", .str c.email), ("nome", .str c.nome), ("perfil", .str c.perfil)]

/-! ### Concrete fixtures used by witnesses -/

/-- A sample configuration with distinct access and refresh secrets. -/
def cfgEx : Config := { secret := "acc", secretRefresh := "ref", accessTtl := 10, refreshTtl := 100 }

/-- A sample stored user record. -/
def uAna : Usuario := { id := 1, email := "ana@ong.org", nome := "Ana", perfil := "admin", senha := "pw" }

/-- The session bundle `login` produces for `uAna` under `cfgEx` at time 0. -/
def bundleAna : SessionBundle :=
  { token := gerarToken cfgEx uAna 0,
    usuario := mkClaims uAna,
    refreshToken := gerarRefreshToken cfgEx uAna 0 }

/-- A refresh token signed with `cfgEx`'s refresh secret, unexpired at time 5,
whose claims snapshot names a user (stale nome and perfil) by email. -/
def staleTok : Token :=
  { claims := { id := 1, email := "ana@ong.org", nome := "OldName", perfil := "volunteer" },
    issuedAt := 0, exp := 50, secret := "ref" }

/-- A refresh token for an email with no user record in the store. -/
def ghostTok : Token :=
  { claims := { id := 9, email := "ghost@ong.org", nome := "Ghost", perfil := "admin" },
    issuedAt := 0, exp := 50, secret := "ref" }

end Autenticacao

namespace Autenticacao

/-- C1: the claim says that when the presented refresh token verifies against
the refresh secret and is unexpired but the credential store has no user for
the embedded email, `refreshToken` fails with the `'Refresh Token inválido'`
error and never resolves to undefined. The code does the opposite: with an
empty user table and a validly-signed unexpired token, the `if (usuario)`
guard is skipped, nothing throws inside the `try`, and the function resolves
to `undefined` (modelled as `.ok none`), not to an error. -/
theorem refresh_valid_token_unknown_user_returns_undefined :
    refreshToken cfgEx [] 5 (.signed ghostTok) = .ok none ∧
    refreshToken cfgEx [] 5 (.signed ghostTok) ≠ .error .RefreshTokenInvalido := by
  constructor
  · rfl
  · decide

/-- C2: for every stored user record `u` reachable by its email and a
presented credential equal to the stored `senha`, `login` succeeds and
returns a bundle carrying an access token, a refresh token, and a public
profile whose id, email, nome and perfil equal `u`'s fields. -/
theorem login_success_matching_credential (cfg : Config) (store : List Usuario) (now : Nat)
    (u : Usuario) (h : buscarPorEmail store u.email = some u) :
    ∃ b, login cfg store now { email := u.email, senha := u.senha } = .ok b ∧
      b.token = gerarToken cfg u now ∧
      b.refreshToken = gerarRefreshToken cfg u now ∧
      b.usuario.id = u.id ∧ b.usuario.email = u.email ∧
      b.usuario.nome = u.nome ∧ b.usuario.perfil = u.perfil := by
  refine ⟨{ token := gerarToken cfg u now, usuario := mkClaims u,
            refreshToken := gerarRefreshToken cfg u now }, ?_, rfl, rfl, rfl, rfl, rfl, rfl⟩
  simp [login, h]

/-- C2 witness: the theorem applied to the concrete store `[uAna]`. -/
theorem login_success_matching_credential_witness :
    buscarPorEmail [uAna] uAna.email = some uAna ∧
    ∃ b, login cfgEx [uAna] 0 { email := uAna.email, senha := uAna.senha } = .ok b ∧
      b.token = gerarToken cfgEx uAna 0 ∧
      b.refreshToken = gerarRefreshToken cfgEx uAna 0 ∧
      b.usuario.id = uAna.id ∧ b.usuario.email = uAna.email ∧
      b.usuario.nome = uAna.nome ∧ b.usuario.perfil = uAna.perfil :=
  ⟨by decide, login_success_matching_credential cfgEx [uAna] 0 uAna (by decide)⟩

/-- C3: every failed login — an email with no record, or a record whose
stored `senha` differs from the presented one — ends in the one throw site
`'Email ou senha inválidos'`, so both sub-cases yield the identical error. -/
theorem login_failure_uniform (cfg : Config) (store : List Usuario) (now : Nat)
    (cred : Credenciais)
    (h : buscarPorEmail store cred.email = none ∨
         ∃ u, buscarPorEmail store cred.email = some u ∧ u.senha ≠ cred.senha) :
    login cfg store now cred = .error .EmailOuSenhaInvalidos := by
  rcases h with h | ⟨u, h, hs⟩
  · simp [login, h]
  · simp [login, h, hs]

/-- C3 witness: the theorem applied once per sub-case — unknown email over
an empty store, and `uAna` with a wrong credential — yielding the same
error both times. -/
theorem login_failure_uniform_witness :
    login cfgEx [] 0 { email := "ana@ong.org", senha := "pw" } = .error .EmailOuSenhaInvalidos ∧
    login cfgEx [uAna] 0 { email := "ana@ong.org", senha := "wrong" } = .error .EmailOuSenhaInvalidos :=
  ⟨login_failure_uniform cfgEx [] 0 _ (Or.inl (by decide)),
   login_failure_uniform cfgEx [uAna] 0 _ (Or.inr ⟨uAna, by decide, by decide⟩)⟩

/-- C4: whenever codec verification of the presented refresh token fails —
`Malformed`, `InvalidSignature` or `Expired` alike — `refreshToken` throws
the single `'Refresh Token inválido'` error, so the codec-level distinction
never reaches the caller. -/
theorem refresh_codec_failure_collapsed (cfg : Config)
    (lookup : String → Except String (Option Usuario)) (now : Nat) (p : Presented)
    (e : VerifError) (h : verify p cfg.secretRefresh now = .error e) :
    refreshTokenWith cfg lookup now p = .error .RefreshTokenInvalido := by
  simp [refreshTokenWith, h]

/-- C4 witness: the theorem applied to each of the three codec failures — a
malformed string, an access-secret-signed token, and an expired token. -/
theorem refresh_codec_failure_collapsed_witness :
    refreshTokenWith cfgEx (fun e => .ok (buscarPorEmail [uAna] e)) 5 (.malformed "junk")
      = .error .RefreshTokenInvalido ∧
    refreshTokenWith cfgEx (fun e => .ok (buscarPorEmail [uAna] e)) 5
      (.signed (issue (mkClaims uAna) "acc" 0 10)) = .error .RefreshTokenInvalido ∧
    refreshTokenWith cfgEx (fun e => .ok (buscarPorEmail [uAna] e)) 60
      (.signed (issue (mkClaims uAna) "ref" 0 10)) = .error .RefreshTokenInvalido :=
  ⟨refresh_codec_failure_collapsed cfgEx _ 5 _ .Malformed (by decide),
   refresh_codec_failure_collapsed cfgEx _ 5 _ .InvalidSignature (by decide),
   refresh_codec_failure_collapsed cfgEx _ 60 _ .Expired (by decide)⟩

/-- C5: with distinct access and refresh secrets, a token issued with one
secret never verifies against the other: `verify` rejects it with
`InvalidSignature` for every claims payload, issue time, TTL and
verification time, in both directions. -/
theorem cross_secret_never_verifies (cfg : Config) (h : cfg.secret ≠ cfg.secretRefresh)
    (c : ClaimsPayload) (now ttl now2 : Nat) :
    verify (.signed (issue c cfg.secret now ttl)) cfg.secretRefresh now2
      = .error .InvalidSignature ∧
    verify (.signed (issue c cfg.secretRefresh now ttl)) cfg.secret now2
      = .error .InvalidSignature := by
  constructor
  · simp [verify, issue, h]
  · simp [verify, issue, Ne.symm h]

/-- C5 witness: the theorem applied to `cfgEx` (secrets "acc" and "ref")
and a concrete claims payload. -/
theorem cross_secret_never_verifies_witness :
    verify (.signed (issue (mkClaims uAna) cfgEx.secret 0 100)) cfgEx.secretRefresh 5
      = .error .InvalidSignature ∧
    verify (.signed (issue (mkClaims uAna) cfgEx.secretRefresh 0 100)) cfgEx.secret 5
      = .error .InvalidSignature :=
  cross_secret_never_verifies cfgEx (by decide) (mkClaims uAna) 0 100 5

/-- C6: on a successful refresh exchange — valid signature, unexpired token,
and a user record currently stored under the email extracted from the
token's claims — the returned profile and the claims placed in both newly
issued tokens are rebuilt from that freshly looked-up record `u`, whatever
snapshot the presented token carried. -/
theorem refresh_rebuilds_from_fresh_lookup (cfg : Config) (store : List Usuario) (now : Nat)
    (t : Token) (u : Usuario)
    (hsig : t.secret = cfg.secretRefresh) (hexp : now < t.exp)
    (hu : buscarPorEmail store t.claims.email = some u) :
    refreshToken cfg store now (.signed t) =
      .ok (some { token := gerarToken cfg u now,
                  usuario := mkClaims u,
                  refreshToken := gerarRefreshToken cfg u now }) ∧
    (gerarToken cfg u now).claims = mkClaims u ∧
    (gerarRefreshToken cfg u now).claims = mkClaims u := by
  refine ⟨?_, rfl, rfl⟩
  simp [refreshToken, refreshTokenWith, verify, hsig, Nat.not_le.mpr hexp, hu]

/-- C6 witness: the theorem applied to `staleTok`, whose snapshot carries a
stale nome ("OldName") and perfil ("volunteer") for `uAna`'s email; the
returned profile nonetheless shows the current record's "Ana"/"admin". -/
theorem refresh_rebuilds_from_fresh_lookup_witness :
    staleTok.claims ≠ mkClaims uAna ∧
    (refreshToken cfgEx [uAna] 5 (.signed staleTok) =
      .ok (some { token := gerarToken cfgEx uAna 5,
                  usuario := mkClaims uAna,
                  refreshToken := gerarRefreshToken cfgEx uAna 5 }) ∧
     (gerarToken cfgEx uAna 5).claims = mkClaims uAna ∧
     (gerarRefreshToken cfgEx uAna 5).claims = mkClaims uAna) :=
  ⟨by decide,
   refresh_rebuilds_from_fresh_lookup cfgEx [uAna] 5 staleTok uAna
     (by decide) (by decide) (by decide)⟩

/-- C7: every successful login or refresh returns a profile object whose
serialized keys are exactly id, email, nome and perfil — in particular the
key "senha" is absent — and the claims embedded in both issued tokens have
the same shape; moreover the claims built from a user record do not depend
on its `senha` field at all. -/
theorem profile_never_contains_senha :
    (∀ cfg store now cred b, login cfg store now cred = .ok b →
      (profileJson b.usuario).map Prod.fst = ["id", "email", "nome", "perfil"] ∧
      "senha" ∉ (profileJson b.usuario).map Prod.fst ∧
      "senha" ∉ (profileJson b.token.claims).map Prod.fst ∧
      "senha" ∉ (profileJson b.refreshToken.claims).map Prod.fst) ∧
    (∀ cfg store now p b, refreshToken cfg store now p = .ok (some b) →
      (profileJson b.usuario).map Prod.fst = ["id", "email", "nome", "perfil"] ∧
      "senha" ∉ (profileJson b.usuario).map Prod.fst ∧
      "senha" ∉ (profileJson b.token.claims).map Prod.fst ∧
      "senha" ∉ (profileJson b.refreshToken.claims).map Prod.fst) ∧
    (∀ u s, mkClaims { u with senha := s } = mkClaims u) := by
  refine ⟨?_, ?_, ?_⟩
  · intro cfg store now cred b _
    exact ⟨rfl, by simp [profileJson], by simp [profileJson], by simp [profileJson]⟩
  · intro cfg store now p b _
    exact ⟨rfl, by simp [profileJson], by simp [profileJson], by simp [profileJson]⟩
  · intro u s; rfl

/-- C7 witness: the theorem's login part applied at the concrete successful
login of `uAna`, whose result bundle is `bundleAna`. -/
theorem profile_never_contains_senha_witness :
    (profileJson bundleAna.usuario).map Prod.fst = ["id", "email", "nome", "perfil"] ∧
    "senha" ∉ (profileJson bundleAna.usuario).map Prod.fst ∧
    "senha" ∉ (profileJson bundleAna.token.claims).map Prod.fst ∧
    "senha" ∉ (profileJson bundleAna.refreshToken.claims).map Prod.fst :=
  profile_never_contains_senha.1 cfgEx [uAna] 0
    { email := "ana@ong.org", senha := "pw" } bundleAna (by decide)

/-- C8: neither operation mutates server state: for every input, successful
or failed, the state after `loginS` and after `refreshTokenS` equals the
state before — the user table and the (empty-by-design) token-record table
are untouched — and the produced result is exactly that of the pure
functions over the read-only user table. -/
theorem auth_service_preserves_state (cfg : Config) (st : ServerState) (now : Nat)
    (cred : Credenciais) (p : Presented) :
    (loginS cfg st now cred).2 = st ∧
    (refreshTokenS cfg st now p).2 = st ∧
    (loginS cfg st now cred).1 = login cfg st.users now cred ∧
    (refreshTokenS cfg st now p).1 = refreshToken cfg st.users now p := by
  refine ⟨?_, ?_, ?_, ?_⟩
  · unfold loginS buscarPorEmailS gerarTokenS gerarRefreshTokenS
    cases hb : buscarPorEmail st.users cred.email with
    | none => simp [hb]
    | some u => by_cases hs : u.senha = cred.senha <;> simp [hb, hs]
  · unfold refreshTokenS buscarPorEmailS gerarTokenS gerarRefreshTokenS
    cases hv : verify p cfg.secretRefresh now with
    | error e => simp [hv]
    | ok d => cases hb : buscarPorEmail st.users d.email <;> simp [hv, hb]
  · unfold loginS login buscarPorEmailS gerarTokenS gerarRefreshTokenS
    cases hb : buscarPorEmail st.users cred.email with
    | none => simp [hb]
    | some u => by_cases hs : u.senha = cred.senha <;> simp [hb, hs]
  · unfold refreshTokenS refreshToken refreshTokenWith buscarPorEmailS
      gerarTokenS gerarRefreshTokenS
    cases hv : verify p cfg.secretRefresh now with
    | error e => simp [hv]
    | ok d => cases hb : buscarPorEmail st.users d.email <;> simp [hv, hb]

/-- C9: inside `refreshToken` the `try` block covers the credential-store
lookup as well as token verification, and the `catch` rethrows everything as
`'Refresh Token inválido'`: every error the operation can produce is that
one, and in particular a lookup that itself fails (a rejected promise) after
a successful verification yields exactly it. -/
theorem refresh_all_failures_collapsed (cfg : Config)
    (lookup : String → Except String (Option Usuario)) (now : Nat) (p : Presented) :
    (∀ e, refreshTokenWith cfg lookup now p = .error e → e = .RefreshTokenInvalido) ∧
    (∀ decoded err, verify p cfg.secretRefresh now = .ok decoded →
      lookup decoded.email = .error err →
      refreshTokenWith cfg lookup now p = .error .RefreshTokenInvalido) := by
  constructor
  · intro e he
    unfold refreshTokenWith at he
    cases hv : verify p cfg.secretRefresh now with
    | error v => simp [hv] at he; exact he.symm
    | ok d =>
      simp only [hv] at he
      cases hl : lookup d.email with
      | error s => simp [hl] at he; exact he.symm
      | ok o => cases o <;> simp [hl] at he
  · intro decoded err hv hl
    simp [refreshTokenWith, hv, hl]

/-- C9 witness: the theorem applied to a lookup that rejects with an
infrastructure error ("ECONNREFUSED") after the valid token `staleTok`
verifies; the caller sees `'Refresh Token inválido'`. -/
theorem refresh_all_failures_collapsed_witness :
    verify (.signed staleTok) cfgEx.secretRefresh 5 = .ok staleTok.claims ∧
    refreshTokenWith cfgEx (fun _ => .error "ECONNREFUSED") 5 (.signed staleTok)
      = .error .RefreshTokenInvalido :=
  ⟨by decide,
   (refresh_all_failures_collapsed cfgEx (fun _ => .error "ECONNREFUSED") 5
      (.signed staleTok)).2 staleTok.claims "ECONNREFUSED" (by decide) rfl⟩

/-- C10: `login` succeeds exactly when the lookup by the presented email
returns a record whose stored `senha` equals the presented one, and then
the result is the complete bundle; in every other case it throws
`'Email ou senha inválidos'` — there is no path returning undefined or a
partial bundle. -/
theorem login_characterization (cfg : Config) (store : List Usuario) (now : Nat)
    (cred : Credenciais) :
    (∃ u, buscarPorEmail store cred.email = some u ∧ u.senha = cred.senha ∧
       login cfg store now cred =
         .ok { token := gerarToken cfg u now, usuario := mkClaims u,
               refreshToken := gerarRefreshToken cfg u now }) ∨
    ((∀ u, buscarPorEmail store cred.email = some u → u.senha ≠ cred.senha) ∧
       login cfg store now cred = .error .EmailOuSenhaInvalidos) := by
  cases h : buscarPorEmail store cred.email with
  | none =>
    right
    refine ⟨?_, by simp [login, h]⟩
    intro u hu
    exact Option.noConfusion hu
  | some u =>
    by_cases hs : u.senha = cred.senha
    · left
      exact ⟨u, rfl, hs, by simp [login, h, hs]⟩
    · right
      refine ⟨?_, by simp [login, h, hs]⟩
      intro v hv
      cases Option.some.inj hv
      exact hs

/-- C10 witness: the theorem applied at a concrete matching login
(`uAna` with its correct senha), where the first disjunct holds. -/
theorem login_characterization_witness :
    (∃ u, buscarPorEmail [uAna] "ana@ong.org" = some u ∧ u.senha = "pw" ∧
       login cfgEx [uAna] 0 { email := "ana@ong.org", senha := "pw" } =
         .ok { token := gerarToken cfgEx u 0, usuario := mkClaims u,
               refreshToken := gerarRefreshToken cfgEx u 0 }) ∨
    ((∀ u, buscarPorEmail [uAna] "ana@ong.org" = some u → u.senha ≠ "pw") ∧
       login cfgEx [uAna] 0 { email := "ana@ong.org", senha := "pw" }
         = .error .EmailOuSenhaInvalidos) :=
  login_characterization cfgEx [uAna] 0 { email := "ana@ong.org", senha := "pw" }

end Autenticacao
